import Mathlib

/-!
Shallow embedding of the mWHO classification engine from src/App.tsx.

The source file holds three successive drafts of the same single-file React
component.  The classification core (severity order, `highestClass`, the seven
per-group rule functions, and the group-selection state transition) is embedded
below, draft by draft where the drafts differ.  Answer sets are modelled as
total maps from question keys to optionally-present string values, matching the
JavaScript object semantics (`a.K === "v"` is false when the key is absent).
-/

/-- The mWHO severity class enumeration from `type MWHO`. `IImIII` renders the
source literal "II–III". -/
inductive MWHO where
  | I
  | II
  | IImIII
  | III
  | IV
deriving DecidableEq, Repr, Fintype

open MWHO

/-- The fixed severity order array `ORDER` (App.tsx line 84). -/
def ORDER : List MWHO := [I, II, IImIII, III, IV]

/-- `highestClass` (App.tsx lines 85-88, identically at 651-654 and 1224-1229):
if either argument is null return the other, else index both into `ORDER` and
return the element at the larger index (with the source fallback `?? a`). -/
def highestClass : Option MWHO → Option MWHO → Option MWHO
  | none, b => b
  | some x, none => some x
  | some x, some y =>
      some (ORDER.getD (max (ORDER.indexOf x) (ORDER.indexOf y)) x)

/-- An answer set `type Answers = Record<string, string>`: a key is either
absent (`none`) or mapped to a selected string value. -/
def Answers : Type := String → Option String

/-- The empty answer set `{}` (no key present). -/
def emptyAnswers : Answers := fun _ => none

/-- A classification result `{ mwho, notes }`. -/
structure Result where
  mwho : Option MWHO
  notes : List String
deriving DecidableEq, Repr

/-- `computeVentricularPH` (App.tsx lines 93-105, identically at 696-708 and
1249-1279): a short-circuit decision tree. -/
def computeVentricularPH (a : Answers) : Result :=
  if a "PAH" = some "yes" then
    { mwho := some IV, notes := ["Pulmonary arterial hypertension"] }
  else if a "LVEF" = some "<30%" ∨ a "NYHA" = some "III/IV" then
    { mwho := some IV, notes := [] }
  else if a "LVEF" = some "30–45%" then
    { mwho := some III, notes := [] }
  else if a "LVEF" = some ">45%" then
    if a "RVfunction" = some "significant" then
      { mwho := some IImIII, notes := [] }
    else if a "PPCM" = some "> mild residual" then
      { mwho := some IV, notes := ["PPCM with > mild residual LV impairment"] }
    else if a "PPCM" = some "≤ mild residual" then
      { mwho := some III, notes := ["PPCM with ≤ mild residual LV impairment"] }
    else
      { mwho := some IImIII, notes := [] }
  else
    { mwho := none, notes := [] }

/-- `computeCardiomyopathy` (App.tsx lines 107-119): collects the triggered
candidate classes in source order into `picks` and folds them with
`highestClass` starting from null. -/
def computeCardiomyopathy (a : Answers) : Result :=
  let picks : List (Option MWHO) :=
    (if a "HCMgenoPheno" = some "+/−" then [some I] else []) ++
    (if a "HCMcomp" = some "arrhythmic/moderate-hemodynamic" then [some III] else []) ++
    (if a "HCMcomp" = some "severe-LVOT>=50-or-EF<50%" then [some IV] else []) ++
    (if a "DCM_EF" = some ">45%" then [some IImIII] else []) ++
    (if a "DCM_EF" = some "30–45%" then [some III] else []) ++
    (if a "DCM_EF" = some "<30%/NYHAIII-IV" then [some IV] else []) ++
    (if a "ARVC" = some "low-risk" then [some IImIII] else []) ++
    (if a "ARVC" = some "moderate/severe" then [some III] else [])
  { mwho := picks.foldl highestClass none, notes := [] }

/-- `computeValvular`, first draft (App.tsx lines 121-143): sequential guard
clauses updating `m` via `highestClass`; notes are pushed by the PS
moderate/severe guard and the two mechanical-valve guards, in source order. -/
def computeValvular (a : Answers) : Result :=
  let m : Option MWHO := none
  let m := if a "PS_sev" = some "mild" then highestClass m (some I) else m
  let m := if a "PS_sev" = some "moderate/severe" then highestClass m (some IImIII) else m
  let m := if a "MS" = some "moderate" then highestClass m (some III) else m
  let m := if a "MS" = some "severe" then highestClass m (some IV) else m
  let m := if a "AS" = some "severe-asymptomatic" then highestClass m (some III) else m
  let m := if a "AS" = some "severe-symptomatic" then highestClass m (some IV) else m
  let m := if a "MR_sev" = some "severe" ∨ a "AR_sev" = some "severe" then
             highestClass m (some III) else m
  let m := if a "MR_sev" = some "moderate" ∨ a "AR_sev" = some "moderate" then
             highestClass m (some IImIII) else m
  let m := if a "MVP_present" = some "yes" ∧
              (a "MR_sev" = some "none/trace" ∨ a "MR_sev" = some "mild") then
             highestClass m (some I) else m
  let m := if a "MechanicalValve" = some "well-controlled" then highestClass m (some III) else m
  let m := if a "MechanicalValve" = some "unstable/complicated" then highestClass m (some III) else m
  let notes : List String :=
    (if a "PS_sev" = some "moderate/severe" then
      ["Moderate/severe PS — confirm gradients and RV pressure"] else []) ++
    (if a "MechanicalValve" = some "well-controlled" then
      ["Mechanical valve on stable anticoagulation"] else []) ++
    (if a "MechanicalValve" = some "unstable/complicated" then
      ["Mechanical valve with complications/unstable anticoagulation"] else [])
  { mwho := m, notes := notes }

/-- `computeValvular`, second draft (App.tsx lines 723-755): same guards as the
first draft, except the MVP clause has an else-branch that pushes the note
"MVP present but MR severity unknown — cannot assume class I" when `MR_sev` is
falsy (absent or empty) or "unknown", and the PS note spells "&". -/
def computeValvularSecond (a : Answers) : Result :=
  let m : Option MWHO := none
  let m := if a "PS_sev" = some "mild" then highestClass m (some I) else m
  let m := if a "PS_sev" = some "moderate/severe" then highestClass m (some IImIII) else m
  let m := if a "MS" = some "moderate" then highestClass m (some III) else m
  let m := if a "MS" = some "severe" then highestClass m (some IV) else m
  let m := if a "AS" = some "severe-asymptomatic" then highestClass m (some III) else m
  let m := if a "AS" = some "severe-symptomatic" then highestClass m (some IV) else m
  let m := if a "MR_sev" = some "severe" ∨ a "AR_sev" = some "severe" then
             highestClass m (some III) else m
  let m := if a "MR_sev" = some "moderate" ∨ a "AR_sev" = some "moderate" then
             highestClass m (some IImIII) else m
  let m := if a "MVP_present" = some "yes" ∧
              (a "MR_sev" = some "none/trace" ∨ a "MR_sev" = some "mild") then
             highestClass m (some I) else m
  let m := if a "MechanicalValve" = some "well-controlled" then highestClass m (some III) else m
  let m := if a "MechanicalValve" = some "unstable/complicated" then highestClass m (some III) else m
  let notes : List String :=
    (if a "PS_sev" = some "moderate/severe" then
      ["Moderate/severe PS — confirm gradients & RV pressure"] else []) ++
    (if a "MVP_present" = some "yes" ∧
        ¬ (a "MR_sev" = some "none/trace" ∨ a "MR_sev" = some "mild") ∧
        (a "MR_sev" = none ∨ a "MR_sev" = some "" ∨ a "MR_sev" = some "unknown") then
      ["MVP present but MR severity unknown — cannot assume class I"] else []) ++
    (if a "MechanicalValve" = some "well-controlled" then
      ["Mechanical valve on stable anticoagulation"] else []) ++
    (if a "MechanicalValve" = some "unstable/complicated" then
      ["Mechanical valve with complications/unstable anticoagulation"] else [])
  { mwho := m, notes := notes }

/-- `computeValvular`, third draft (App.tsx lines 1301-1328): a different
question-key scheme (`PS`, `MVP`, `LeftRegurg`, `NativeTissue`, ...). -/
def computeValvularThird (a : Answers) : Result :=
  let m : Option MWHO := none
  let m := if a "PS" = some "small/mild" then highestClass m (some I) else m
  let m := if a "MVP" = some "no-sig-MR" then highestClass m (some I) else m
  let m := if a "MS" = some "moderate" then highestClass m (some III) else m
  let m := if a "MS" = some "severe" then highestClass m (some IV) else m
  let m := if a "AS" = some "severe-asymptomatic" then highestClass m (some III) else m
  let m := if a "AS" = some "severe-symptomatic" then highestClass m (some IV) else m
  let m := if a "LeftRegurg" = some "severe" then highestClass m (some III) else m
  let m := if a "NativeTissue" = some "mild-MS/mod-AS/mod-regurg" then
             highestClass m (some IImIII) else m
  let m := if a "MechanicalValve" = some "well-controlled" then highestClass m (some III) else m
  let m := if a "MechanicalValve" = some "unstable/complicated" then highestClass m (some III) else m
  let notes : List String :=
    (if a "MechanicalValve" = some "well-controlled" then
      ["Mechanical valve on stable anticoagulation"] else []) ++
    (if a "MechanicalValve" = some "unstable/complicated" then
      ["Mechanical valve with complications/unstable anticoagulation"] else [])
  { mwho := m, notes := notes }

/-- `computeCongenital` (App.tsx lines 145-161). -/
def computeCongenital (a : Answers) : Result :=
  let m : Option MWHO := none
  let m := if a "SimpleRepaired" = some "yes" then highestClass m (some I) else m
  let m := if a "ASDVSDunoperated" = some "yes" then highestClass m (some II) else m
  let m := if a "ToFgood" = some "yes" then highestClass m (some II) else m
  let m := if a "TGAarterialSwitchGood" = some "yes" then highestClass m (some II) else m
  let m := if a "AVSDrepairedGood" = some "yes" then highestClass m (some IImIII) else m
  let m := if a "Ebstein" = some "uncomplicated" then highestClass m (some IImIII) else m
  let m := if a "Ebstein" = some "complicated" then highestClass m (some III) else m
  let m := if a "SystemicRV" = some "good/mildly-decreased" then highestClass m (some III) else m
  let m := if a "SystemicRV" = some "moderate/severely-decreased" then highestClass m (some IV) else m
  let m := if a "Fontan" = some "uncomplicated" then highestClass m (some III) else m
  let m := if a "Fontan" = some "complicated" then highestClass m (some IV) else m
  let m := if a "Cyanotic" = some "unrepaired-non-eisenmenger" then highestClass m (some III) else m
  let m := if a "Cyanotic" = some "eisenmenger" then highestClass m (some IV) else m
  { mwho := m, notes := [] }

/-- `computeAortopathy` (App.tsx lines 163-178): guard clauses with notes
pushed on the four severe (class IV) branches, in source order. -/
def computeAortopathy (a : Answers) : Result :=
  let m : Option MWHO := none
  let m := if a "NonHTADlt40" = some "yes" then highestClass m (some I) else m
  let m := if a "TurnerNoCVfeatures" = some "yes" then highestClass m (some II) else m
  let m := if a "HTADnoDilation_or_BAVlt45_or_repairedCoA" = some "yes" then
             highestClass m (some IImIII) else m
  let m := if a "Marfan40to45" = some "yes" then highestClass m (some III) else m
  let m := if a "BAV45to50" = some "yes" then highestClass m (some III) else m
  let m := if a "TurnerASI20to25" = some "yes" then highestClass m (some III) else m
  let m := if a "OtherAortaLt50" = some "yes" then highestClass m (some III) else m
  let m := if a "MarfanGt45" = some "yes" then highestClass m (some IV) else m
  let m := if a "BAVGt50" = some "yes" then highestClass m (some IV) else m
  let m := if a "TurnerASIgt25" = some "yes" then highestClass m (some IV) else m
  let m := if a "SevereRecoA_or_vEDS_or_PriorDissectionGrowing" = some "yes" then
             highestClass m (some IV) else m
  let m := if a "PriorDissectionStable" = some "yes" then highestClass m (some III) else m
  let notes : List String :=
    (if a "MarfanGt45" = some "yes" then ["Marfan/HTAD aortic diameter >45 mm"] else []) ++
    (if a "BAVGt50" = some "yes" then ["BAV aortic diameter >50 mm"] else []) ++
    (if a "TurnerASIgt25" = some "yes" then ["Turner ASI >25 mm^2/m"] else []) ++
    (if a "SevereRecoA_or_vEDS_or_PriorDissectionGrowing" = some "yes" then
      ["Severe (re)CoA / vEDS / prior dissection with growth"] else [])
  { mwho := m, notes := notes }

/-- `computeArrhythmia` (App.tsx lines 180-188). -/
def computeArrhythmia (a : Answers) : Result :=
  let m : Option MWHO := none
  let m := if a "IsolatedEctopy" = some "yes" then highestClass m (some I) else m
  let m := if a "SVTorPacemaker" = some "yes" then highestClass m (some II) else m
  let m := if a "InheritedLowRisk" = some "yes" then highestClass m (some IImIII) else m
  let m := if a "InheritedHighRisk" = some "yes" then highestClass m (some III) else m
  let m := if a "SustainedVT" = some "yes" then highestClass m (some III) else m
  { mwho := m, notes := [] }

/-- `computeCoronaryOther` (App.tsx lines 190-197). -/
def computeCoronaryOther (a : Answers) : Result :=
  let m : Option MWHO := none
  let m := if a "SCAD" = some "yes" then highestClass m (some III) else m
  let m := if a "PriorIschaemia" = some "yes" then highestClass m (some III) else m
  let m := if a "PriorAPOhosp" = some "yes" then highestClass m (some III) else m
  let m := if a "CancerTherapyCVtox" = some "yes" then highestClass m (some III) else m
  { mwho := m, notes := [] }

/-- The seven disease-group tags `GROUPS` (App.tsx lines 200-208). -/
inductive DiseaseGroup where
  | ventricularPH
  | cardiomyopathy
  | valvular
  | congenital
  | aortopathy
  | arrhythmia
  | coronaryOther
deriving DecidableEq, Repr

/-- The per-group dispatch of the first-draft `App` component (App.tsx lines
490-498): each group tag selects its rule function. -/
def classifyGroup : DiseaseGroup → Answers → Result
  | DiseaseGroup.ventricularPH, a => computeVentricularPH a
  | DiseaseGroup.cardiomyopathy, a => computeCardiomyopathy a
  | DiseaseGroup.valvular, a => computeValvular a
  | DiseaseGroup.congenital, a => computeCongenital a
  | DiseaseGroup.aortopathy, a => computeAortopathy a
  | DiseaseGroup.arrhythmia, a => computeArrhythmia a
  | DiseaseGroup.coronaryOther, a => computeCoronaryOther a

/-- The UI state relevant to group selection: the chosen group and the
accumulated answer set (`useState` pair in each draft of `App`). -/
structure AppState where
  group : Option DiseaseGroup
  answers : Answers

/-- The first-draft group-button handler (App.tsx line 524): `setGroup(g)`
followed by `setAnswers` with the empty object, so answers are reset. -/
def selectGroup (g : DiseaseGroup) (_s : AppState) : AppState :=
  { group := some g, answers := emptyAnswers }

/-- The second-draft group-button handler (App.tsx line 1052): `setGroup(g)`
only; the answer set is left untouched. -/
def selectGroupSecond (g : DiseaseGroup) (s : AppState) : AppState :=
  { s with group := some g }

/-- The third-draft group-button handler (App.tsx line 1623): `setGroup(g)`
only; the answer set is left untouched. -/
def selectGroupThird (g : DiseaseGroup) (s : AppState) : AppState :=
  { s with group := some g }

/-- Claim C1: `highestClass` is commutative, associative, and has `none` (null)
as identity over the 6-element domain `Option MWHO`; on two non-null arguments
it returns whichever occupies the later position in `ORDER`. -/
theorem highestClass_comm_assoc_identity_max :
    (∀ a b : Option MWHO, highestClass a b = highestClass b a) ∧
    (∀ a b c : Option MWHO,
      highestClass (highestClass a b) c = highestClass a (highestClass b c)) ∧
    (∀ a : Option MWHO, highestClass none a = a ∧ highestClass a none = a) ∧
    (∀ x y : MWHO, highestClass (some x) (some y) =
      some (if ORDER.indexOf x ≤ ORDER.indexOf y then y else x)) := by
  refine ⟨by decide, by decide, by decide, by decide⟩

/-- Concrete answer set with both severe signals: PAH answered "yes" and LVEF
answered "<30%". -/
def pahAndLowEF : Answers := fun k =>
  if k = "PAH" then some "yes" else if k = "LVEF" then some "<30%" else none

/-- Claim C3: whenever the answer set maps PAH to "yes", `computeVentricularPH`
returns class IV with exactly the note "Pulmonary arterial hypertension"; the
PAH branch short-circuits all later branches. -/
theorem computeVentricularPH_PAH_shortcircuit (a : Answers) (h : a "PAH" = some "yes") :
    computeVentricularPH a = { mwho := some IV, notes := ["Pulmonary arterial hypertension"] } := by
  simp [computeVentricularPH, h]

/-- Witness for claim C3 at the concrete answer set with PAH = "yes" and
LVEF = "<30%". -/
theorem computeVentricularPH_PAH_shortcircuit_witness :
    computeVentricularPH pahAndLowEF =
      { mwho := some IV, notes := ["Pulmonary arterial hypertension"] } :=
  computeVentricularPH_PAH_shortcircuit pahAndLowEF (by decide)

/-- Concrete answer set triggering both the HCM genotype-positive class-I guard
and the severe-DCM class-IV guard. -/
def hcmAndDcm : Answers := fun k =>
  if k = "HCMgenoPheno" then some "+/−"
  else if k = "DCM_EF" then some "<30%/NYHAIII-IV" else none

/-- Claim C4: on the answer set with HCMgenoPheno = "+/−" and DCM_EF =
"<30%/NYHAIII-IV", `computeCardiomyopathy` returns class IV with no notes, and
IV is exactly the `highestClass` reduction of the two triggered candidates I
and IV. -/
theorem computeCardiomyopathy_cross_rule_reduction :
    computeCardiomyopathy hcmAndDcm = { mwho := some IV, notes := [] } ∧
    highestClass (some I) (some IV) = some IV := by
  exact ⟨by decide, by decide⟩

/-- Concrete answer set with MVP present and moderate mitral regurgitation. -/
def mvpModerateMR : Answers := fun k =>
  if k = "MVP_present" then some "yes"
  else if k = "MR_sev" then some "moderate" else none

/-- Claim C5: on the answer set with MVP_present = "yes" and MR_sev =
"moderate", the first-draft `computeValvular` returns class II–III with no
notes; the MVP class-I guard condition is false because MR_sev is neither
"none/trace" nor "mild". -/
theorem computeValvular_guard_exclusion :
    computeValvular mvpModerateMR = { mwho := some IImIII, notes := [] } ∧
    ¬ (mvpModerateMR "MR_sev" = some "none/trace" ∨ mvpModerateMR "MR_sev" = some "mild") := by
  exact ⟨by decide, by decide⟩

/-- Claim C6: every per-group classification function, as dispatched by
`classifyGroup`, is deterministic: evaluating it twice on the identical answer
set yields identical results. In this embedding all seven functions are pure
Lean functions of the answer set alone (the source mutates only local
variables), so the two evaluations are definitionally equal. -/
theorem classifyGroup_deterministic (g : DiseaseGroup) (a : Answers) :
    classifyGroup g a = classifyGroup g a := rfl

/-- A prior UI state with a previously chosen group and one accumulated
answer (PAH = "yes"). -/
def priorState : AppState :=
  { group := some DiseaseGroup.ventricularPH,
    answers := fun k => if k = "PAH" then some "yes" else none }

/-- Counterexample to claim C7: in the second draft, selecting the
Cardiomyopathy group from `priorState` does not reset the answer set — the
accumulated answer PAH = "yes" survives, so the resulting answer set is not the
empty mapping. -/
theorem selectGroup_reset_counterexample :
    (selectGroupSecond DiseaseGroup.cardiomyopathy priorState).answers ≠ emptyAnswers := by
  intro h
  have h2 := congrFun h "PAH"
  simp [selectGroupSecond, priorState, emptyAnswers] at h2

/-- Claim C7 as amended: only the first draft resets the answer set to the
empty mapping on group selection; the second and third drafts leave the
accumulated answer set unchanged. -/
theorem selectGroup_reset_amended :
    (∀ (g : DiseaseGroup) (s : AppState), (selectGroup g s).answers = emptyAnswers) ∧
    (∀ (g : DiseaseGroup) (s : AppState), (selectGroupSecond g s).answers = s.answers) ∧
    (∀ (g : DiseaseGroup) (s : AppState), (selectGroupThird g s).answers = s.answers) :=
  ⟨fun _ _ => rfl, fun _ _ => rfl, fun _ _ => rfl⟩

/-- Concrete answer set with MVP present and MR severity absent. -/
def mvpUnknownMR : Answers := fun k =>
  if k = "MVP_present" then some "yes" else none

/-- Claim C8: the three drafts of the Valvular classifier are not extensionally
equal: on MVP_present = "yes" with MR_sev absent, the second draft pushes the
note "MVP present but MR severity unknown — cannot assume class I" while the
first and third drafts return no note. -/
theorem computeValvular_drafts_diverge :
    computeValvular mvpUnknownMR ≠ computeValvularSecond mvpUnknownMR ∧
    computeValvularThird mvpUnknownMR ≠ computeValvularSecond mvpUnknownMR ∧
    (computeValvularSecond mvpUnknownMR).notes =
      ["MVP present but MR severity unknown — cannot assume class I"] ∧
    (computeValvular mvpUnknownMR).notes = [] ∧
    (computeValvularThird mvpUnknownMR).notes = [] := by
  refine ⟨by decide, by decide, by decide, by decide, by decide⟩

/-- Claim C9: `computeVentricularPH` never returns class I or class II; its
result class is always one of null, II–III, III, IV. -/
theorem computeVentricularPH_no_low_class (a : Answers) :
    (computeVentricularPH a).mwho ≠ some I ∧
    (computeVentricularPH a).mwho ≠ some II ∧
    ((computeVentricularPH a).mwho = none ∨ (computeVentricularPH a).mwho = some IImIII ∨
      (computeVentricularPH a).mwho = some III ∨ (computeVentricularPH a).mwho = some IV) := by
  unfold computeVentricularPH
  split_ifs <;> simp

/-- Answer set making the Ventricular/PH/PPCM group emit a note. -/
def noteVent : Answers := fun k => if k = "PAH" then some "yes" else none

/-- Answer set making the Valvular group emit a note. -/
def noteValv : Answers := fun k =>
  if k = "MechanicalValve" then some "well-controlled" else none

/-- Answer set making the Aortopathy group emit a note. -/
def noteAorto : Answers := fun k => if k = "MarfanGt45" then some "yes" else none

/-- Claim C10: for every answer set, `computeCardiomyopathy`,
`computeCongenital`, `computeArrhythmia` and `computeCoronaryOther` return an
empty notes list; the remaining three groups (Ventricular/PH/PPCM, Valvular,
Aortopathy) can each produce a non-empty notes list. -/
theorem computeGroups_notes_empty :
    (∀ a : Answers,
      (computeCardiomyopathy a).notes = [] ∧ (computeCongenital a).notes = [] ∧
      (computeArrhythmia a).notes = [] ∧ (computeCoronaryOther a).notes = []) ∧
    (computeVentricularPH noteVent).notes ≠ [] ∧
    (computeValvular noteValv).notes ≠ [] ∧
    (computeAortopathy noteAorto).notes ≠ [] := by
  refine ⟨fun a => ⟨rfl, rfl, rfl, rfl⟩, by decide, by decide, by decide⟩

/-- The disjunction of the guard conditions of `computeVentricularPH`: some
branch of the decision tree other than the final null default is taken. -/
abbrev ventGuards (a : Answers) : Prop :=
  a "PAH" = some "yes" ∨
  (a "LVEF" = some "<30%" ∨ a "NYHA" = some "III/IV") ∨
  a "LVEF" = some "30–45%" ∨
  a "LVEF" = some ">45%"

/-- The disjunction of the guard conditions of `computeCardiomyopathy`. -/
abbrev cardioGuards (a : Answers) : Prop :=
  a "HCMgenoPheno" = some "+/−" ∨
  a "HCMcomp" = some "arrhythmic/moderate-hemodynamic" ∨
  a "HCMcomp" = some "severe-LVOT>=50-or-EF<50%" ∨
  a "DCM_EF" = some ">45%" ∨
  a "DCM_EF" = some "30–45%" ∨
  a "DCM_EF" = some "<30%/NYHAIII-IV" ∨
  a "ARVC" = some "low-risk" ∨
  a "ARVC" = some "moderate/severe"

/-- The disjunction of the guard conditions of the first-draft
`computeValvular`. -/
abbrev valvGuards (a : Answers) : Prop :=
  a "PS_sev" = some "mild" ∨
  a "PS_sev" = some "moderate/severe" ∨
  a "MS" = some "moderate" ∨
  a "MS" = some "severe" ∨
  a "AS" = some "severe-asymptomatic" ∨
  a "AS" = some "severe-symptomatic" ∨
  (a "MR_sev" = some "severe" ∨ a "AR_sev" = some "severe") ∨
  (a "MR_sev" = some "moderate" ∨ a "AR_sev" = some "moderate") ∨
  (a "MVP_present" = some "yes" ∧
    (a "MR_sev" = some "none/trace" ∨ a "MR_sev" = some "mild")) ∨
  a "MechanicalValve" = some "well-controlled" ∨
  a "MechanicalValve" = some "unstable/complicated"

/-- The disjunction of the guard conditions of `computeCongenital`. -/
abbrev congGuards (a : Answers) : Prop :=
  a "SimpleRepaired" = some "yes" ∨
  a "ASDVSDunoperated" = some "yes" ∨
  a "ToFgood" = some "yes" ∨
  a "TGAarterialSwitchGood" = some "yes" ∨
  a "AVSDrepairedGood" = some "yes" ∨
  a "Ebstein" = some "uncomplicated" ∨
  a "Ebstein" = some "complicated" ∨
  a "SystemicRV" = some "good/mildly-decreased" ∨
  a "SystemicRV" = some "moderate/severely-decreased" ∨
  a "Fontan" = some "uncomplicated" ∨
  a "Fontan" = some "complicated" ∨
  a "Cyanotic" = some "unrepaired-non-eisenmenger" ∨
  a "Cyanotic" = some "eisenmenger"

/-- The disjunction of the guard conditions of `computeAortopathy`. -/
abbrev aortoGuards (a : Answers) : Prop :=
  a "NonHTADlt40" = some "yes" ∨
  a "TurnerNoCVfeatures" = some "yes" ∨
  a "HTADnoDilation_or_BAVlt45_or_repairedCoA" = some "yes" ∨
  a "Marfan40to45" = some "yes" ∨
  a "BAV45to50" = some "yes" ∨
  a "TurnerASI20to25" = some "yes" ∨
  a "OtherAortaLt50" = some "yes" ∨
  a "MarfanGt45" = some "yes" ∨
  a "BAVGt50" = some "yes" ∨
  a "TurnerASIgt25" = some "yes" ∨
  a "SevereRecoA_or_vEDS_or_PriorDissectionGrowing" = some "yes" ∨
  a "PriorDissectionStable" = some "yes"

/-- The disjunction of the guard conditions of `computeArrhythmia`. -/
abbrev arrGuards (a : Answers) : Prop :=
  a "IsolatedEctopy" = some "yes" ∨
  a "SVTorPacemaker" = some "yes" ∨
  a "InheritedLowRisk" = some "yes" ∨
  a "InheritedHighRisk" = some "yes" ∨
  a "SustainedVT" = some "yes"

/-- The disjunction of the guard conditions of `computeCoronaryOther`. -/
abbrev coronaryGuards (a : Answers) : Prop :=
  a "SCAD" = some "yes" ∨
  a "PriorIschaemia" = some "yes" ∨
  a "PriorAPOhosp" = some "yes" ∨
  a "CancerTherapyCVtox" = some "yes"

/-- Claim C2: every per-group classification function is total (a Lean function
on arbitrary answer sets, including the empty one and ones with unrecognized
keys or values) and, whenever none of its guards matches, returns exactly the
null class with no notes; in particular Aortopathy on the empty answer set
returns null with no notes. -/
theorem computeGroups_total_default :
    (∀ a : Answers, ¬ ventGuards a →
      computeVentricularPH a = { mwho := none, notes := [] }) ∧
    (∀ a : Answers, ¬ cardioGuards a →
      computeCardiomyopathy a = { mwho := none, notes := [] }) ∧
    (∀ a : Answers, ¬ valvGuards a →
      computeValvular a = { mwho := none, notes := [] }) ∧
    (∀ a : Answers, ¬ congGuards a →
      computeCongenital a = { mwho := none, notes := [] }) ∧
    (∀ a : Answers, ¬ aortoGuards a →
      computeAortopathy a = { mwho := none, notes := [] }) ∧
    (∀ a : Answers, ¬ arrGuards a →
      computeArrhythmia a = { mwho := none, notes := [] }) ∧
    (∀ a : Answers, ¬ coronaryGuards a →
      computeCoronaryOther a = { mwho := none, notes := [] }) ∧
    computeAortopathy emptyAnswers = { mwho := none, notes := [] } := by
  refine ⟨?_, ?_, ?_, ?_, ?_, ?_, ?_, by decide⟩
  · intro a h
    simp only [ventGuards, not_or] at h
    obtain ⟨h1, ⟨h2, h3⟩, h4, h5⟩ := h
    simp [computeVentricularPH, h1, h2, h3, h4, h5]
  · intro a h
    simp only [cardioGuards, not_or] at h
    obtain ⟨h1, h2, h3, h4, h5, h6, h7, h8⟩ := h
    simp [computeCardiomyopathy, h1, h2, h3, h4, h5, h6, h7, h8]
  · intro a h
    simp only [valvGuards, not_or] at h
    obtain ⟨h1, h2, h3, h4, h5, h6, ⟨h7, h8⟩, ⟨h9, h10⟩, h11, h12, h13⟩ := h
    simp [computeValvular, h1, h2, h3, h4, h5, h6, h7, h8, h9, h10, h11, h12, h13]
  · intro a h
    simp only [congGuards, not_or] at h
    obtain ⟨h1, h2, h3, h4, h5, h6, h7, h8, h9, h10, h11, h12, h13⟩ := h
    simp [computeCongenital, h1, h2, h3, h4, h5, h6, h7, h8, h9, h10, h11, h12, h13]
  · intro a h
    simp only [aortoGuards, not_or] at h
    obtain ⟨h1, h2, h3, h4, h5, h6, h7, h8, h9, h10, h11, h12⟩ := h
    simp [computeAortopathy, h1, h2, h3, h4, h5, h6, h7, h8, h9, h10, h11, h12]
  · intro a h
    simp only [arrGuards, not_or] at h
    obtain ⟨h1, h2, h3, h4, h5⟩ := h
    simp [computeArrhythmia, h1, h2, h3, h4, h5]
  · intro a h
    simp only [coronaryGuards, not_or] at h
    obtain ⟨h1, h2, h3, h4⟩ := h
    simp [computeCoronaryOther, h1, h2, h3, h4]

/-- Witness for claim C2 at the empty answer set: no guard of any group
matches, and each of the seven functions returns the null class with no
notes. -/
theorem computeGroups_total_default_witness :
    (¬ ventGuards emptyAnswers ∧
      computeVentricularPH emptyAnswers = { mwho := none, notes := [] }) ∧
    (¬ cardioGuards emptyAnswers ∧
      computeCardiomyopathy emptyAnswers = { mwho := none, notes := [] }) ∧
    (¬ valvGuards emptyAnswers ∧
      computeValvular emptyAnswers = { mwho := none, notes := [] }) ∧
    (¬ congGuards emptyAnswers ∧
      computeCongenital emptyAnswers = { mwho := none, notes := [] }) ∧
    (¬ aortoGuards emptyAnswers ∧
      computeAortopathy emptyAnswers = { mwho := none, notes := [] }) ∧
    (¬ arrGuards emptyAnswers ∧
      computeArrhythmia emptyAnswers = { mwho := none, notes := [] }) ∧
    (¬ coronaryGuards emptyAnswers ∧
      computeCoronaryOther emptyAnswers = { mwho := none, notes := [] }) :=
  ⟨⟨by decide, computeGroups_total_default.1 emptyAnswers (by decide)⟩,
   ⟨by decide, computeGroups_total_default.2.1 emptyAnswers (by decide)⟩,
   ⟨by decide, computeGroups_total_default.2.2.1 emptyAnswers (by decide)⟩,
   ⟨by decide, computeGroups_total_default.2.2.2.1 emptyAnswers (by decide)⟩,
   ⟨by decide, computeGroups_total_default.2.2.2.2.1 emptyAnswers (by decide)⟩,
   ⟨by decide, computeGroups_total_default.2.2.2.2.2.1 emptyAnswers (by decide)⟩,
   ⟨by decide, computeGroups_total_default.2.2.2.2.2.2.1 emptyAnswers (by decide)⟩⟩
